import Mathlib

/-!
Shallow embedding of `Taipower/connection.py` (libtaipower).

The module defines one class `TaipowerConnection` (token state, login,
request sender) and four endpoint subclasses; the only one a claim needs is
`GetAMI`.  HTTP traffic is modelled by passing the response a request would
receive as an explicit argument, and by returning a `Trace` recording the
requests that were sent and the lines the debug printer emitted.  Python
exceptions (AttributeError, KeyError, TypeError, ValueError, RuntimeError)
become an explicit `PyErr` in an `Except`.  JSON bodies are association
lists of string keys to `JVal` values; timestamps are modelled as integers
(the source uses `time.time()` floats, but the only arithmetic is one
addition).  `utility.des_encrypt` lives in a module that is not part of the
given source, so it is passed in as an abstract function, as the spec treats
it (an opaque `encode_credential`).
-/

/-- A JSON value, as far as the client inspects them: strings and numbers. -/
inductive JVal where
  | str : String → JVal
  | num : Int → JVal
deriving Repr, DecidableEq

/-- A parsed JSON object (Python dict of a response body or request body). -/
abbrev JObj := List (String × JVal)

/-- Python exceptions the embedded code can raise. -/
inductive PyErr where
  | attributeError : String → PyErr
  | keyError : String → PyErr
  | typeError : PyErr
  | valueError : String → PyErr
  | runtimeError : String → PyErr
deriving Repr, DecidableEq

/-- Python dict lookup `obj[k]`, as an option (callers turn `none` into
`PyErr.keyError`). -/
def jlookup (obj : JObj) (k : String) : Option JVal :=
  match obj with
  | [] => none
  | (k2, v) :: rest => if k2 == k then some v else jlookup rest k

/-- Python f-string conversion of a JSON value (used by
`f"{response_json['error']}"` and the Bearer header). -/
def pyStr : JVal → String
  | .str s => s
  | .num n => toString n

/-- `ENDPOINT = "mapp-2019.taipower.com.tw"`. -/
def ENDPOINT : String := "mapp-2019.taipower.com.tw"

/-- `BASIC_AUTH`: the fixed, hardcoded client secret for the token endpoint. -/
def BASIC_AUTH : String :=
  "dHBlYy13U1pvLTVDNjZTZG84ZzM6X1UyVlpZd05kWi1hTW9ILV9fZlctZ3ROR0lwVmgydy4="

/-- `APP_VERSION = "3.0.6"`: the fixed client version string. -/
def APP_VERSION : String := "3.0.6"

/-- `TaipowerTokens` dataclass.  The dataclass does not enforce field types,
so the token fields hold whatever JSON values the response carried. -/
structure TaipowerTokens where
  access_token : JVal
  refresh_token : JVal
  expiration : Int
deriving Repr, DecidableEq

/-- An HTTP response, already JSON-parsed (every response the client handles
goes through `response.json()`). -/
structure HttpResponse where
  status_code : Nat
  body : JObj
deriving Repr, DecidableEq

/-- One outbound HTTP POST issued by the client (`httpx.post`). -/
structure SentRequest where
  url : String
  headers : List (String × String)
  body : Option JObj
  proxies : Option String
deriving Repr, DecidableEq

/-- The observable side effects of a call: requests sent on the network and
lines emitted by the debug printer. -/
structure Trace where
  sent : List SentRequest
  printed : List String
deriving Repr, DecidableEq

/-- The instance attributes of a `TaipowerConnection`.  `taipower_tokens =
none` covers both "attribute not yet assigned" and "assigned `None`": either
way a later dereference raises AttributeError.  The attribute `_aws_tokens`
read by `login` is never assigned anywhere in the class, so it is not a
field; reading it always raises.  (`_login_response` is assigned once and
never read, so it is omitted.) -/
structure ClientState where
  account : String
  password : String
  print_response : Bool
  proxies : Option String
  taipower_tokens : Option TaipowerTokens
deriving Repr, DecidableEq

/-- The environment of one `login` call: the opaque password encoder
`utility.des_encrypt`, the fresh `uuid.uuid4()` of this call, `time.time()`,
and the response the token endpoint returns. -/
structure LoginEnv where
  des_encrypt : String → String
  fresh_uuid : String
  now : Int
  resp : HttpResponse

/-- `TaipowerConnection._generate_headers`.  The Bearer arm dereferences
`self._taipower_tokens.access_token`, which raises AttributeError when the
token state is null; the Basic arm touches no token state (the Python
conditional expression evaluates only the selected arm). -/
def generate_headers (st : ClientState) (token_type : String) :
    Except PyErr (List (String × String)) :=
  if token_type == "bearer" then
    match st.taipower_tokens with
    | some t =>
        .ok [("Accept", "*"),
             ("Authorization", "Bearer " ++ pyStr t.access_token),
             ("User-Agent", "Mozilla/5.0 ( compatible )")]
    | none => .error (.attributeError "access_token")
  else
    .ok [("Accept", "*"),
         ("Authorization", "Basic " ++ BASIC_AUTH),
         ("User-Agent", "Mozilla/5.0 ( compatible )")]

/-- `TaipowerConnection._handle_response`: HTTP 200 maps to status `"OK"`
with the parsed body; anything else takes `response_json['error']`, a dict
lookup that raises KeyError when the key is absent. -/
def handle_response (resp : HttpResponse) : Except PyErr (String × JObj) :=
  if resp.status_code == 200 then
    .ok ("OK", resp.body)
  else
    match jlookup resp.body "error" with
    | some v => .ok (pyStr v, resp.body)
    | none => .error (.keyError "error")

/-- The lines `TaipowerConnection.print_response` writes to stdout (response
headers are not modelled beyond a placeholder line). -/
def printResponseLines (resp : HttpResponse) : List String :=
  let separator := String.mk (List.replicate 51 '=')
  [separator,
   "status_code: " ++ toString resp.status_code,
   "text: " ++ toString (repr resp.body),
   separator]

/-- `TaipowerConnection._send`: build Bearer headers, POST the body to the
api path, optionally print the response, then normalize it with
`_handle_response`. -/
def send (st : ClientState) (api_name : String) (json_body : Option JObj)
    (resp : HttpResponse) : Trace × Except PyErr (String × JObj) :=
  match generate_headers st "bearer" with
  | .error e => ({ sent := [], printed := [] }, .error e)
  | .ok headers =>
      let req : SentRequest :=
        { url := "https://" ++ ENDPOINT ++ "/" ++ api_name,
          headers := headers, body := json_body, proxies := st.proxies }
      let printed := if st.print_response then printResponseLines resp else []
      ({ sent := [req], printed := printed }, handle_response resp)

/-- `TaipowerConnection.login`.  The guard in the source is
`if use_refresh_token and self._aws_tokens != None:`; `_aws_tokens` is never
assigned anywhere in the class, so as soon as `use_refresh_token` is true the
attribute access raises AttributeError before any request is built (when it
is false, `and` short-circuits and the attribute is never read).  Otherwise
the password-grant form body is posted to `oauth/token` with Basic headers,
the response is normalized by `_handle_response`, and on status `"OK"` with
`token_type == "bearer"` a new `TaipowerTokens` is built; the
`refresh_token` field keeps the conditional of source line 136 verbatim. -/
def login (st : ClientState) (env : LoginEnv) (use_refresh_token : Bool) :
    Trace × Except PyErr (String × Option TaipowerTokens) :=
  if use_refresh_token then
    ({ sent := [], printed := [] }, .error (.attributeError "_aws_tokens"))
  else
    let login_json_data : JObj :=
      [("username", .str st.account),
       ("password", .str (env.des_encrypt st.password)),
       ("grant_type", .str "password"),
       ("scope", .str "tpec"),
       ("device_id", .str env.fresh_uuid),
       ("appVersion", .str APP_VERSION)]
    match generate_headers st "basic" with
    | .error e => ({ sent := [], printed := [] }, .error e)
    | .ok login_headers =>
        let req : SentRequest :=
          { url := "https://" ++ ENDPOINT ++ "/oauth/token",
            headers := login_headers, body := some login_json_data,
            proxies := st.proxies }
        let printed := if st.print_response then printResponseLines env.resp else []
        let tr : Trace := { sent := [req], printed := printed }
        match handle_response env.resp with
        | .error e => (tr, .error e)
        | .ok (status, response) =>
            if status == "OK" then
              match jlookup response "token_type" with
              | none => (tr, .error (.keyError "token_type"))
              | some tt =>
                  if tt == JVal.str "bearer" then
                    match jlookup response "access_token" with
                    | none => (tr, .error (.keyError "access_token"))
                    | some av =>
                        let refresh_v : Except PyErr JVal :=
                          if use_refresh_token then
                            match st.taipower_tokens with
                            | some t => .ok t.refresh_token
                            | none => .error (.attributeError "refresh_token")
                          else
                            match jlookup response "refresh_token" with
                            | some v => .ok v
                            | none => .error (.keyError "refresh_token")
                        match refresh_v with
                        | .error e => (tr, .error e)
                        | .ok rv =>
                            match jlookup response "expires_in" with
                            | none => (tr, .error (.keyError "expires_in"))
                            | some (.str _) => (tr, .error .typeError)
                            | some (.num n) =>
                                (tr, .ok (status,
                                  some { access_token := av,
                                         refresh_token := rv,
                                         expiration := env.now + n }))
                  else (tr, .ok (status, none))
            else (tr, .ok (status, none))

/-- `TaipowerConnection.__init__`: with an explicit `taipower_tokens` it is
stored and nothing else happens; otherwise `login()` (password grant) runs
and a status other than `"OK"` raises
`RuntimeError(f"An error occurred when signing into Taipower API: {conn_status}")`. -/
def init (account password : String) (taipower_tokens : Option TaipowerTokens)
    (proxy : Option String) (print_response : Bool) (env : LoginEnv) :
    Trace × Except PyErr ClientState :=
  let st0 : ClientState :=
    { account := account, password := password,
      print_response := print_response, proxies := proxy,
      taipower_tokens := none }
  match taipower_tokens with
  | some t =>
      ({ sent := [], printed := [] },
       .ok { st0 with taipower_tokens := some t })
  | none =>
      let r := login st0 env false
      match r.2 with
      | .error e => (r.1, .error e)
      | .ok (conn_status, toks) =>
          if conn_status == "OK" then
            (r.1, .ok { st0 with taipower_tokens := toks })
          else
            (r.1, .error (.runtimeError
              ("An error occurred when signing into Taipower API: " ++ conn_status)))

/-- A calendar point in time (the fields of `datetime` that `strftime`
reads here). -/
structure Date where
  year : Nat
  month : Nat
  day : Nat
deriving Repr, DecidableEq

/-- Zero-pad a digit string on the left to width `w`. -/
def padZero (w : Nat) (s : String) : String :=
  String.mk (List.replicate (w - s.length) '0') ++ s

/-- `datetime.strftime("%Y")`. -/
def strftime_Y (d : Date) : String := padZero 4 (toString d.year)

/-- `datetime.strftime("%Y%m")`. -/
def strftime_Ym (d : Date) : String :=
  strftime_Y d ++ padZero 2 (toString d.month)

/-- `datetime.strftime("%Y%m%d")`. -/
def strftime_Ymd (d : Date) : String :=
  strftime_Ym d ++ padZero 2 (toString d.day)

/-- `GetMember.get_data`. -/
def GetMember.get_data (st : ClientState) (resp : HttpResponse) :
    Trace × Except PyErr (String × JObj) :=
  send st "member/getData" none resp

/-- `GetAMIBill.get_data`. -/
def GetAMIBill.get_data (st : ClientState) (electric_number : String)
    (resp : HttpResponse) : Trace × Except PyErr (String × JObj) :=
  send st "api/home/bills"
    (some [("phoneNo", .str st.account),
           ("deviceId", .str ""),
           ("customNo", .str electric_number)]) resp

/-- `GetAMI.get_data` (the AmiUsage accessor): pick the body key and the
`strftime` format from the granularity, raise ValueError on anything
outside the four known values (before `_send` is reached), then POST
`{custNo, <key>: <formatted time>}` to `api/ami/<granularity>`. -/
def GetAMI.get_data (st : ClientState) (time_period : String) (dt : Date)
    (electric_number : String) (resp : HttpResponse) :
    Trace × Except PyErr (String × JObj) :=
  let sel : Except PyErr (String × String) :=
    if time_period == "hour" then .ok ("date", strftime_Ymd dt)
    else if time_period == "daily" then .ok ("yearMonth", strftime_Ym dt)
    else if time_period == "monthly" then .ok ("year", strftime_Y dt)
    else if time_period == "quater" then .ok ("date", strftime_Ymd dt)
    else .error (.valueError
      "time_period accepts either `hour`, `daily`, `monthly`, or `quater`.")
  match sel with
  | .error e => ({ sent := [], printed := [] }, .error e)
  | .ok (time_text, time_rep) =>
      send st ("api/ami/" ++ time_period)
        (some [("custNo", .str electric_number), (time_text, .str time_rep)]) resp

/-- `GetBillRecords.get_data`. -/
def GetBillRecords.get_data (st : ClientState) (electric_number : String)
    (resp : HttpResponse) : Trace × Except PyErr (String × JObj) :=
  send st "api/mybill/records"
    (some [("customNo", .str electric_number)]) resp

/-- C1: the claim says `login(use_refresh_token)` with `use_refresh_token`
true and a stored TokenSet sends the refresh-token body.  On the source this
is false: the branch guard reads `self._aws_tokens`, an attribute never
assigned anywhere in the class (a slip for `self._taipower_tokens`, which
the login docstring documents), so the call raises AttributeError before any
request body is built or any request is sent. -/
theorem login_refresh_attribute_error :
    login { account := "0912345678", password := "pw", print_response := false,
            proxies := none,
            taipower_tokens := some { access_token := JVal.str "A",
                                      refresh_token := JVal.str "R",
                                      expiration := 100 } }
      { des_encrypt := id, fresh_uuid := "u", now := 0,
        resp := { status_code := 200, body := [] } } true
      = ({ sent := [], printed := [] },
         Except.error (PyErr.attributeError "_aws_tokens")) := rfl

/-- C2 counterexample: a client whose construction performed a login that
got HTTP 200 with `token_type` different from `"bearer"` completes
construction without error and holds a null token state. -/
theorem init_ok_with_null_token_state :
    (init "0912345678" "pw" none none false
      { des_encrypt := id, fresh_uuid := "u", now := 0,
        resp := { status_code := 200,
                  body := [("token_type", JVal.str "mac")] } }).2
      = Except.ok { account := "0912345678", password := "pw",
                    print_response := false, proxies := none,
                    taipower_tokens := none } := rfl

/-- C8: constructing a client with a pre-existing TokenSet sends no request,
performs no login, and stores the supplied TokenSet unchanged. -/
theorem init_with_tokens_no_network (a p : String) (toks : TaipowerTokens)
    (proxy : Option String) (pr : Bool) (env : LoginEnv) :
    init a p (some toks) proxy pr env =
      ({ sent := [], printed := [] },
       Except.ok { account := a, password := p, print_response := pr,
                   proxies := proxy, taipower_tokens := some toks }) := rfl

/-- C7: `GetAMI.get_data` with a granularity outside
{hour, daily, monthly, quater} raises ValueError (the source realization of
the InvalidArgument error) and sends no request. -/
theorem get_ami_invalid_granularity (st : ClientState) (g : String) (dt : Date)
    (en : String) (resp : HttpResponse)
    (h1 : g ≠ "hour") (h2 : g ≠ "daily") (h3 : g ≠ "monthly")
    (h4 : g ≠ "quater") :
    GetAMI.get_data st g dt en resp =
      ({ sent := [], printed := [] },
       Except.error (PyErr.valueError
         "time_period accepts either `hour`, `daily`, `monthly`, or `quater`.")) := by
  simp [GetAMI.get_data, h1, h2, h3, h4]

/-- C7 witness: the granularity `"weekly"` at concrete inputs. -/
theorem get_ami_invalid_granularity_witness :
    GetAMI.get_data
      { account := "0912345678", password := "pw", print_response := false,
        proxies := none, taipower_tokens := none }
      "weekly" { year := 2022, month := 1, day := 2 } "0000000000"
      { status_code := 200, body := [] } =
      ({ sent := [], printed := [] },
       Except.error (PyErr.valueError
         "time_period accepts either `hour`, `daily`, `monthly`, or `quater`.")) :=
  get_ami_invalid_granularity _ "weekly" _ "0000000000" _
    (by decide) (by decide) (by decide) (by decide)

/-- C5: outcome normalization of the request sender: HTTP 200 yields status
`"OK"` with the parsed body as payload; any other status yields the value of
the body field `error` (f-string converted) as status with the parsed body
as payload. -/
theorem send_response_normalization (st : ClientState) (t : TaipowerTokens)
    (api : String) (jb : Option JObj) (resp : HttpResponse)
    (htok : st.taipower_tokens = some t) :
    (resp.status_code = 200 →
        (send st api jb resp).2 = Except.ok ("OK", resp.body))
    ∧ (∀ v, resp.status_code ≠ 200 → jlookup resp.body "error" = some v →
        (send st api jb resp).2 = Except.ok (pyStr v, resp.body)) := by
  constructor
  · intro h200
    simp [send, generate_headers, htok, handle_response, h200]
  · intro v hne herr
    simp [send, generate_headers, htok, handle_response, hne, herr]

/-- C5 witness: a 200 response with body containing the single pair x = 1
normalizes to status OK with that body. -/
theorem send_response_normalization_witness :
    ((200 : Nat) = 200 →
        (send { account := "0912345678", password := "pw",
                print_response := false, proxies := none,
                taipower_tokens := some { access_token := JVal.str "A",
                                          refresh_token := JVal.str "R",
                                          expiration := 100 } }
          "member/getData" none
          { status_code := 200, body := [("x", JVal.num 1)] }).2
          = Except.ok ("OK", [("x", JVal.num 1)]))
    ∧ (∀ v, (200 : Nat) ≠ 200 →
        jlookup [("x", JVal.num 1)] "error" = some v →
        (send { account := "0912345678", password := "pw",
                print_response := false, proxies := none,
                taipower_tokens := some { access_token := JVal.str "A",
                                          refresh_token := JVal.str "R",
                                          expiration := 100 } }
          "member/getData" none
          { status_code := 200, body := [("x", JVal.num 1)] }).2
          = Except.ok (pyStr v, [("x", JVal.num 1)])) :=
  send_response_normalization
    { account := "0912345678", password := "pw",
      print_response := false, proxies := none,
      taipower_tokens := some { access_token := JVal.str "A",
                                refresh_token := JVal.str "R",
                                expiration := 100 } }
    { access_token := JVal.str "A", refresh_token := JVal.str "R",
      expiration := 100 }
    "member/getData" none
    { status_code := 200, body := [("x", JVal.num 1)] } rfl

/-- C10: on a non-200 response whose body has no `error` key, the shared
normalization (and hence the sender) raises KeyError instead of returning a
pair; it returns a pair exactly when the `error` key is present. -/
theorem non200_missing_error_key (st : ClientState) (t : TaipowerTokens)
    (api : String) (jb : Option JObj) (resp : HttpResponse)
    (htok : st.taipower_tokens = some t) (hne : resp.status_code ≠ 200) :
    (jlookup resp.body "error" = none →
        handle_response resp = Except.error (PyErr.keyError "error")
        ∧ (send st api jb resp).2 = Except.error (PyErr.keyError "error"))
    ∧ (∀ v, jlookup resp.body "error" = some v →
        handle_response resp = Except.ok (pyStr v, resp.body)) := by
  constructor
  · intro hmiss
    constructor <;> simp [handle_response, send, generate_headers, htok, hne, hmiss]
  · intro v herr
    simp [handle_response, hne, herr]

/-- C10 witness: a 500 response with an empty JSON object body. -/
theorem non200_missing_error_key_witness :
    (jlookup ([] : JObj) "error" = none →
        handle_response { status_code := 500, body := [] }
            = Except.error (PyErr.keyError "error")
        ∧ (send { account := "0912345678", password := "pw",
                  print_response := false, proxies := none,
                  taipower_tokens := some { access_token := JVal.str "A",
                                            refresh_token := JVal.str "R",
                                            expiration := 100 } }
            "member/getData" none { status_code := 500, body := [] }).2
            = Except.error (PyErr.keyError "error"))
    ∧ (∀ v, jlookup ([] : JObj) "error" = some v →
        handle_response { status_code := 500, body := [] }
            = Except.ok (pyStr v, [])) :=
  non200_missing_error_key
    { account := "0912345678", password := "pw",
      print_response := false, proxies := none,
      taipower_tokens := some { access_token := JVal.str "A",
                                refresh_token := JVal.str "R",
                                expiration := 100 } }
    { access_token := JVal.str "A", refresh_token := JVal.str "R",
      expiration := 100 }
    "member/getData" none { status_code := 500, body := [] } rfl (by decide)

/-- C6: for each recognized granularity, `GetAMI.get_data` posts exactly one
request to `api/ami/<granularity>` whose body holds the electric account
number and the time key and date format of the table: hour, key `date`,
YYYYMMDD; daily, key `yearMonth`, YYYYMM; monthly, key `year`, YYYY;
quater, key `date`, YYYYMMDD. -/
theorem get_ami_granularity_table (st : ClientState) (t : TaipowerTokens)
    (dt : Date) (en : String) (resp : HttpResponse)
    (htok : st.taipower_tokens = some t) :
    (GetAMI.get_data st "hour" dt en resp).1.sent =
      [{ url := "https://" ++ ENDPOINT ++ "/api/ami/hour",
         headers := [("Accept", "*"),
                     ("Authorization", "Bearer " ++ pyStr t.access_token),
                     ("User-Agent", "Mozilla/5.0 ( compatible )")],
         body := some [("custNo", JVal.str en),
                       ("date", JVal.str (strftime_Ymd dt))],
         proxies := st.proxies }]
    ∧ (GetAMI.get_data st "daily" dt en resp).1.sent =
      [{ url := "https://" ++ ENDPOINT ++ "/api/ami/daily",
         headers := [("Accept", "*"),
                     ("Authorization", "Bearer " ++ pyStr t.access_token),
                     ("User-Agent", "Mozilla/5.0 ( compatible )")],
         body := some [("custNo", JVal.str en),
                       ("yearMonth", JVal.str (strftime_Ym dt))],
         proxies := st.proxies }]
    ∧ (GetAMI.get_data st "monthly" dt en resp).1.sent =
      [{ url := "https://" ++ ENDPOINT ++ "/api/ami/monthly",
         headers := [("Accept", "*"),
                     ("Authorization", "Bearer " ++ pyStr t.access_token),
                     ("User-Agent", "Mozilla/5.0 ( compatible )")],
         body := some [("custNo", JVal.str en),
                       ("year", JVal.str (strftime_Y dt))],
         proxies := st.proxies }]
    ∧ (GetAMI.get_data st "quater" dt en resp).1.sent =
      [{ url := "https://" ++ ENDPOINT ++ "/api/ami/quater",
         headers := [("Accept", "*"),
                     ("Authorization", "Bearer " ++ pyStr t.access_token),
                     ("User-Agent", "Mozilla/5.0 ( compatible )")],
         body := some [("custNo", JVal.str en),
                       ("date", JVal.str (strftime_Ymd dt))],
         proxies := st.proxies }] := by
  refine ⟨?_, ?_, ?_, ?_⟩ <;>
    simp [GetAMI.get_data, send, generate_headers, htok, ENDPOINT]

/-- C6 witness: the four granularities at a concrete date and account. -/
theorem get_ami_granularity_table_witness :
    (GetAMI.get_data
        { account := "0912345678", password := "pw", print_response := false,
          proxies := none,
          taipower_tokens := some { access_token := JVal.str "A",
                                    refresh_token := JVal.str "R",
                                    expiration := 100 } }
        "hour" { year := 2022, month := 3, day := 4 } "0000000000"
        { status_code := 200, body := [] }).1.sent =
      [{ url := "https://" ++ ENDPOINT ++ "/api/ami/hour",
         headers := [("Accept", "*"),
                     ("Authorization", "Bearer " ++ pyStr (JVal.str "A")),
                     ("User-Agent", "Mozilla/5.0 ( compatible )")],
         body := some [("custNo", JVal.str "0000000000"),
                       ("date", JVal.str (strftime_Ymd { year := 2022, month := 3, day := 4 }))],
         proxies := none }]
    ∧ (GetAMI.get_data
        { account := "0912345678", password := "pw", print_response := false,
          proxies := none,
          taipower_tokens := some { access_token := JVal.str "A",
                                    refresh_token := JVal.str "R",
                                    expiration := 100 } }
        "daily" { year := 2022, month := 3, day := 4 } "0000000000"
        { status_code := 200, body := [] }).1.sent =
      [{ url := "https://" ++ ENDPOINT ++ "/api/ami/daily",
         headers := [("Accept", "*"),
                     ("Authorization", "Bearer " ++ pyStr (JVal.str "A")),
                     ("User-Agent", "Mozilla/5.0 ( compatible )")],
         body := some [("custNo", JVal.str "0000000000"),
                       ("yearMonth", JVal.str (strftime_Ym { year := 2022, month := 3, day := 4 }))],
         proxies := none }]
    ∧ (GetAMI.get_data
        { account := "0912345678", password := "pw", print_response := false,
          proxies := none,
          taipower_tokens := some { access_token := JVal.str "A",
                                    refresh_token := JVal.str "R",
                                    expiration := 100 } }
        "monthly" { year := 2022, month := 3, day := 4 } "0000000000"
        { status_code := 200, body := [] }).1.sent =
      [{ url := "https://" ++ ENDPOINT ++ "/api/ami/monthly",
         headers := [("Accept", "*"),
                     ("Authorization", "Bearer " ++ pyStr (JVal.str "A")),
                     ("User-Agent", "Mozilla/5.0 ( compatible )")],
         body := some [("custNo", JVal.str "0000000000"),
                       ("year", JVal.str (strftime_Y { year := 2022, month := 3, day := 4 }))],
         proxies := none }]
    ∧ (GetAMI.get_data
        { account := "0912345678", password := "pw", print_response := false,
          proxies := none,
          taipower_tokens := some { access_token := JVal.str "A",
                                    refresh_token := JVal.str "R",
                                    expiration := 100 } }
        "quater" { year := 2022, month := 3, day := 4 } "0000000000"
        { status_code := 200, body := [] }).1.sent =
      [{ url := "https://" ++ ENDPOINT ++ "/api/ami/quater",
         headers := [("Accept", "*"),
                     ("Authorization", "Bearer " ++ pyStr (JVal.str "A")),
                     ("User-Agent", "Mozilla/5.0 ( compatible )")],
         body := some [("custNo", JVal.str "0000000000"),
                       ("date", JVal.str (strftime_Ymd { year := 2022, month := 3, day := 4 }))],
         proxies := none }] :=
  get_ami_granularity_table
    { account := "0912345678", password := "pw", print_response := false,
      proxies := none,
      taipower_tokens := some { access_token := JVal.str "A",
                                refresh_token := JVal.str "R",
                                expiration := 100 } }
    { access_token := JVal.str "A", refresh_token := JVal.str "R",
      expiration := 100 }
    { year := 2022, month := 3, day := 4 } "0000000000"
    { status_code := 200, body := [] } rfl

/-- C3: whenever a `login` call returns normally after an HTTP 200 response
whose `token_type` is `"bearer"`, the status is `"OK"` and the returned
TokenSet has the access token of the response, expiration `now + expires_in`,
and the refresh token of the response.  The refresh-grant clause of the
claim ("carried over unchanged") is vacuous on this code: a call with
`use_refresh_token` true raises AttributeError before any response exists,
which the `(login st env urt).2 = ok` hypothesis rules out. -/
theorem login_bearer_success_tokens (st : ClientState) (env : LoginEnv)
    (urt : Bool) (s : String) (toks : Option TaipowerTokens) (av rv : JVal)
    (n : Int)
    (hok : (login st env urt).2 = Except.ok (s, toks))
    (h200 : env.resp.status_code = 200)
    (htt : jlookup env.resp.body "token_type" = some (JVal.str "bearer"))
    (hat : jlookup env.resp.body "access_token" = some av)
    (hrt : jlookup env.resp.body "refresh_token" = some rv)
    (hei : jlookup env.resp.body "expires_in" = some (JVal.num n)) :
    s = "OK" ∧ toks = some { access_token := av, refresh_token := rv,
                             expiration := env.now + n } := by
  cases urt with
  | true => simp [login] at hok
  | false =>
    simp [login, generate_headers, handle_response, h200, htt, hat, hrt, hei]
      at hok
    exact ⟨hok.1.symm, hok.2.symm⟩

/-- C3 witness: mocked 200 token response with access token A, refresh
token R, expires_in 3600 at time 0. -/
theorem login_bearer_success_tokens_witness :
    ("OK" : String) = "OK"
    ∧ (some { access_token := JVal.str "A", refresh_token := JVal.str "R",
              expiration := (0 : Int) + 3600 } : Option TaipowerTokens)
      = some { access_token := JVal.str "A", refresh_token := JVal.str "R",
               expiration := (0 : Int) + 3600 } :=
  login_bearer_success_tokens
    { account := "0912345678", password := "pw", print_response := false,
      proxies := none, taipower_tokens := none }
    { des_encrypt := id, fresh_uuid := "u", now := 0,
      resp := { status_code := 200,
                body := [("token_type", JVal.str "bearer"),
                         ("access_token", JVal.str "A"),
                         ("refresh_token", JVal.str "R"),
                         ("expires_in", JVal.num 3600)] } }
    false "OK"
    (some { access_token := JVal.str "A", refresh_token := JVal.str "R",
            expiration := (0 : Int) + 3600 })
    (JVal.str "A") (JVal.str "R") 3600
    rfl rfl rfl rfl rfl rfl

/-- C4 counterexample: the claim says every non-200 login response yields
the error-field value as status and a null TokenSet.  False: on a 400
response whose `error` field is the string `"OK"`, the status check
`status == "OK"` at connection.py:133 passes, and with a bearer
`token_type` and token fields present the call returns a non-null
TokenSet built from the non-200 response. -/
theorem login_non200_error_ok_counterexample :
    (login
        { account := "0912345678", password := "pw", print_response := false,
          proxies := none, taipower_tokens := none }
        { des_encrypt := id, fresh_uuid := "u", now := 0,
          resp := { status_code := 400,
                    body := [("error", JVal.str "OK"),
                             ("token_type", JVal.str "bearer"),
                             ("access_token", JVal.str "A"),
                             ("refresh_token", JVal.str "R"),
                             ("expires_in", JVal.num 3600)] } }
        false).2
      = Except.ok ("OK", some { access_token := JVal.str "A",
                                refresh_token := JVal.str "R",
                                expiration := (0 : Int) + 3600 }) := rfl

/-- C4 (amended): a non-200 login response whose body carries an `error`
field with string value different from `"OK"` makes `login` return that
value as status with a null TokenSet; construction that performed such a
login (status not `"OK"`) fails with the RuntimeError carrying the status
string (the source realization of AuthenticationError), after exactly one
request (no retry).  The excluded error value `"OK"` is the counterexample
above: there the status check passes and the non-200 body drives the token
branch instead. -/
theorem login_non200_error_status (st : ClientState) (a p : String)
    (proxy : Option String) (pr : Bool) (env : LoginEnv) (v : JVal)
    (hne : env.resp.status_code ≠ 200)
    (herr : jlookup env.resp.body "error" = some v)
    (hnok : pyStr v ≠ "OK") :
    (login st env false).2 = Except.ok (pyStr v, none)
    ∧ (init a p none proxy pr env).2
        = Except.error (PyErr.runtimeError
            ("An error occurred when signing into Taipower API: " ++ pyStr v))
    ∧ (init a p none proxy pr env).1.sent.length = 1 := by
  refine ⟨?_, ?_, ?_⟩ <;>
    simp [init, login, generate_headers, handle_response, hne, herr, hnok]

/-- C4 witness: mocked 400 response carrying error `invalid_grant`. -/
theorem login_non200_error_status_witness :
    (login
        { account := "0912345678", password := "pw", print_response := false,
          proxies := none, taipower_tokens := none }
        { des_encrypt := id, fresh_uuid := "u", now := 0,
          resp := { status_code := 400,
                    body := [("error", JVal.str "invalid_grant")] } }
        false).2
      = Except.ok (pyStr (JVal.str "invalid_grant"), none)
    ∧ (init "0912345678" "pw" none none false
        { des_encrypt := id, fresh_uuid := "u", now := 0,
          resp := { status_code := 400,
                    body := [("error", JVal.str "invalid_grant")] } }).2
      = Except.error (PyErr.runtimeError
          ("An error occurred when signing into Taipower API: "
            ++ pyStr (JVal.str "invalid_grant")))
    ∧ (init "0912345678" "pw" none none false
        { des_encrypt := id, fresh_uuid := "u", now := 0,
          resp := { status_code := 400,
                    body := [("error", JVal.str "invalid_grant")] } }).1.sent.length
      = 1 :=
  login_non200_error_status
    { account := "0912345678", password := "pw", print_response := false,
      proxies := none, taipower_tokens := none }
    "0912345678" "pw" none false
    { des_encrypt := id, fresh_uuid := "u", now := 0,
      resp := { status_code := 400,
                body := [("error", JVal.str "invalid_grant")] } }
    (JVal.str "invalid_grant") (by decide) rfl (by decide)

/-- Helper: `_handle_response` never changes the payload: an ok result
carries the parsed response body. -/
lemma handle_response_body (resp : HttpResponse) (s0 : String) (b0 : JObj)
    (h : handle_response resp = Except.ok (s0, b0)) : b0 = resp.body := by
  unfold handle_response at h
  split at h
  · simp at h
    exact h.2.symm
  · split at h
    · simp at h
      exact h.2.symm
    · simp at h

/-- Helper: a `login` call that returns normally with status `"OK"` from a
response whose `token_type` is `"bearer"` returns a non-null TokenSet. -/
lemma login_ok_bearer_some (st : ClientState) (env : LoginEnv) (s : String)
    (toks : Option TaipowerTokens)
    (hok : (login st env false).2 = Except.ok (s, toks))
    (hs : s = "OK")
    (htt : jlookup env.resp.body "token_type" = some (JVal.str "bearer")) :
    toks ≠ none := by
  cases hh : handle_response env.resp with
  | error e => simp [login, generate_headers, hh] at hok
  | ok p =>
    obtain ⟨status, response⟩ := p
    have hresp : response = env.resp.body := handle_response_body _ _ _ hh
    subst hresp
    by_cases hst : status = "OK"
    · subst hst
      cases hat : jlookup env.resp.body "access_token" with
      | none => simp [login, generate_headers, hh, htt, hat] at hok
      | some av =>
        cases hrt : jlookup env.resp.body "refresh_token" with
        | none => simp [login, generate_headers, hh, htt, hat, hrt] at hok
        | some rv =>
          cases hei : jlookup env.resp.body "expires_in" with
          | none => simp [login, generate_headers, hh, htt, hat, hrt, hei] at hok
          | some ev =>
            cases ev with
            | str s2 =>
                simp [login, generate_headers, hh, htt, hat, hrt, hei] at hok
            | num n =>
                simp [login, generate_headers, hh, htt, hat, hrt, hei] at hok
                simp [← hok.2]
    · simp [login, generate_headers, hh, hst] at hok
      exact absurd (hok.1 ▸ hs) hst

/-- C2 (amended): a client whose construction completed without error holds
a non-null token state whenever an explicit TokenSet was supplied or the
login response carried `token_type` equal to `"bearer"`; the excluded case
(login answered with status `"OK"` but a non-bearer `token_type`) leaves a
successfully constructed client with a null token state. -/
theorem init_ok_holds_tokens (a p : String) (toks : Option TaipowerTokens)
    (proxy : Option String) (pr : Bool) (env : LoginEnv) (st : ClientState)
    (h : (init a p toks proxy pr env).2 = Except.ok st)
    (hbearer : toks ≠ none
        ∨ jlookup env.resp.body "token_type" = some (JVal.str "bearer")) :
    st.taipower_tokens ≠ none := by
  cases toks with
  | some t =>
    simp [init] at h
    simp [← h]
  | none =>
    rcases hbearer with hb | hb
    · exact absurd rfl hb
    · simp only [init] at h
      cases hl : (login { account := a, password := p, print_response := pr,
                          proxies := proxy, taipower_tokens := none } env
                    false).2 with
      | error e => rw [hl] at h; simp at h
      | ok r =>
        obtain ⟨conn_status, toks2⟩ := r
        rw [hl] at h
        by_cases hcs : conn_status = "OK"
        · subst hcs
          simp at h
          have := login_ok_bearer_some _ env "OK" toks2 hl rfl hb
          cases toks2 with
          | none => exact absurd rfl this
          | some t2 => simp [← h]
        · simp [hcs] at h

/-- C2 witness: a construction from a 200 bearer response holds a non-null
token state. -/
theorem init_ok_holds_tokens_witness :
    (ClientState.taipower_tokens
      { account := "0912345678", password := "pw", print_response := false,
        proxies := none,
        taipower_tokens := some { access_token := JVal.str "A",
                                  refresh_token := JVal.str "R",
                                  expiration := (0 : Int) + 3600 } }) ≠ none :=
  init_ok_holds_tokens "0912345678" "pw" none none false
    { des_encrypt := id, fresh_uuid := "u", now := 0,
      resp := { status_code := 200,
                body := [("token_type", JVal.str "bearer"),
                         ("access_token", JVal.str "A"),
                         ("refresh_token", JVal.str "R"),
                         ("expires_in", JVal.num 3600)] } }
    { account := "0912345678", password := "pw", print_response := false,
      proxies := none,
      taipower_tokens := some { access_token := JVal.str "A",
                                refresh_token := JVal.str "R",
                                expiration := (0 : Int) + 3600 } }
    rfl (Or.inr rfl)

/-- C9: the verbose/debug flag `print_response` changes neither the
(status, payload) pair computed by the request sender nor the
(status, TokenSet) pair computed by `login`. -/
theorem debug_flag_does_not_affect_results (st : ClientState) (api : String)
    (jb : Option JObj) (resp : HttpResponse) (env : LoginEnv) (urt : Bool) :
    (send { st with print_response := true } api jb resp).2
      = (send { st with print_response := false } api jb resp).2
    ∧ (login { st with print_response := true } env urt).2
      = (login { st with print_response := false } env urt).2 := by
  constructor
  · cases htk : st.taipower_tokens <;> simp [send, generate_headers, htk]
  · cases urt with
    | true => rfl
    | false =>
      cases hh : handle_response env.resp with
      | error e => simp [login, generate_headers, hh]
      | ok p =>
        obtain ⟨status, response⟩ := p
        by_cases hst : status = "OK"
        · subst hst
          cases htt : jlookup response "token_type" with
          | none => simp [login, generate_headers, hh, htt]
          | some tt =>
            by_cases htb : tt = JVal.str "bearer"
            · subst htb
              cases hat : jlookup response "access_token" with
              | none => simp [login, generate_headers, hh, htt, hat]
              | some av =>
                cases hrt : jlookup response "refresh_token" with
                | none => simp [login, generate_headers, hh, htt, hat, hrt]
                | some rv =>
                  cases hei : jlookup response "expires_in" with
                  | none => simp [login, generate_headers, hh, htt, hat, hrt, hei]
                  | some ev =>
                    cases ev <;>
                      simp [login, generate_headers, hh, htt, hat, hrt, hei]
            · simp [login, generate_headers, hh, htt, htb]
        · simp [login, generate_headers, hh, hst]
